import Mathlib

/-!
Verification of the order pricing engine from `SOLID/code-examples/chapter-14.cpp`
(`OrderItem`, `OrderConstants`, `OrderCalculator`).

Modelling choices:
- C++ `double` monetary amounts are modelled as exact rationals `ℚ`; the spec
  describes all amounts as decimals and all constants (0.1, 0.05, 100.0, 10.0)
  are exact decimals.
- C++ `int` quantities are modelled as `ℤ`.
- `std::string` is modelled as `String`; `::toupper` (C locale) agrees with
  `Char.toUpper` on the ASCII range.
- `throw std::invalid_argument(msg)` is modelled as `Except.error msg`;
  a normal return is `Except.ok`.
- `std::round` is round-half-away-from-zero, modelled on `ℚ` by
  `roundHalfAwayFromZero`.
-/

structure OrderItem where
  productName : String
  price : ℚ
  quantity : ℤ
  category : String
deriving DecidableEq

def OrderItem.getTotalPrice (item : OrderItem) : ℚ :=
  item.price * (item.quantity : ℚ)

namespace OrderConstants

def ELECTRONICS_TAX_RATE : ℚ := 1/10

def BOOK_BULK_DISCOUNT_RATE : ℚ := 1/20

def BOOK_BULK_QUANTITY_THRESHOLD : ℤ := 5

def FREE_SHIPPING_THRESHOLD : ℚ := 100

def STANDARD_SHIPPING_COST : ℚ := 10

def ELECTRONICS_CATEGORY : String := "ELECTRONICS"

def BOOKS_CATEGORY : String := "BOOKS"

end OrderConstants

namespace OrderCalculator

/-- Model of `OrderCalculator::toUpperCase`: transform each character with the C `toupper`. -/
def toUpperCase (str : String) : String :=
  ⟨str.data.map Char.toUpper⟩

/-- Model of `OrderCalculator::applyElectronicsTax`. -/
def applyElectronicsTax (amount : ℚ) : ℚ :=
  amount * (1 + OrderConstants.ELECTRONICS_TAX_RATE)

/-- Model of `OrderCalculator::applyBookDiscount`. -/
def applyBookDiscount (amount : ℚ) (quantity : ℤ) : ℚ :=
  if quantity ≥ OrderConstants.BOOK_BULK_QUANTITY_THRESHOLD then
    amount * (1 - OrderConstants.BOOK_BULK_DISCOUNT_RATE)
  else
    amount

/-- Model of `OrderCalculator::calculateItemTotal`. -/
def calculateItemTotal (item : OrderItem) : ℚ :=
  let baseTotal := item.getTotalPrice
  let upperCategory := toUpperCase item.category
  if upperCategory = OrderConstants.ELECTRONICS_CATEGORY then
    applyElectronicsTax baseTotal
  else if upperCategory = OrderConstants.BOOKS_CATEGORY then
    applyBookDiscount baseTotal item.quantity
  else
    baseTotal

/-- Model of `OrderCalculator::calculateSubtotal`: the accumulating loop over the items. -/
def calculateSubtotal (orderItems : List OrderItem) : ℚ :=
  orderItems.foldl (fun subtotal item => subtotal + calculateItemTotal item) 0

/-- Model of `OrderCalculator::calculateShippingCost`. -/
def calculateShippingCost (subtotal : ℚ) : ℚ :=
  if subtotal ≥ OrderConstants.FREE_SHIPPING_THRESHOLD then 0
  else OrderConstants.STANDARD_SHIPPING_COST

/-- The per-item body of the validation loop in
`OrderCalculator::validateOrderItems`: the first failing check's message,
or `none` when the item passes all three checks. -/
def itemViolation (item : OrderItem) : Option String :=
  if item.quantity ≤ 0 then
    some ("Invalid quantity for item " ++ item.productName)
  else if item.price < 0 then
    some ("Invalid price for item " ++ item.productName)
  else if item.productName = "" then
    some "Product name cannot be empty"
  else
    none

/-- The validation loop of `OrderCalculator::validateOrderItems`: throws at the
first item that fails a check. -/
def validateLoop : List OrderItem → Except String Unit
  | [] => Except.ok ()
  | item :: rest =>
    match itemViolation item with
    | some msg => Except.error msg
    | none => validateLoop rest

/-- Model of `OrderCalculator::validateOrderItems`. -/
def validateOrderItems (orderItems : List OrderItem) : Except String Unit :=
  if orderItems.isEmpty then
    Except.error "Order must contain at least one item"
  else
    validateLoop orderItems

/-- Model of `std::round`: round half away from zero to the nearest integer. -/
def roundHalfAwayFromZero (q : ℚ) : ℤ :=
  if 0 ≤ q then Int.floor (q + 1/2) else Int.ceil (q - 1/2)

/-- Model of the expression `std::round(x * 100.0) / 100.0`: round to 2 decimal places. -/
def roundTo2 (q : ℚ) : ℚ :=
  (roundHalfAwayFromZero (q * 100) : ℚ) / 100

/-- Model of `OrderCalculator::calculateOrderTotal`. -/
def calculateOrderTotal (orderItems : List OrderItem) : Except String ℚ :=
  match validateOrderItems orderItems with
  | Except.error e => Except.error e
  | Except.ok _ =>
    let subtotal := calculateSubtotal orderItems
    let shippingCost := calculateShippingCost subtotal
    let totalAmount := subtotal + shippingCost
    Except.ok (roundTo2 totalAmount)

/-- The spec's precondition on a single item: positive quantity, non-negative
price, non-empty product name. -/
def ValidItem (item : OrderItem) : Prop :=
  0 < item.quantity ∧ 0 ≤ item.price ∧ item.productName ≠ ""

/-- The spec's precondition on an order: non-empty, every item valid. -/
def ValidOrder (orderItems : List OrderItem) : Prop :=
  orderItems ≠ [] ∧ ∀ item ∈ orderItems, ValidItem item

instance (item : OrderItem) : Decidable (ValidItem item) := by
  unfold ValidItem; infer_instance

instance (orderItems : List OrderItem) : Decidable (ValidOrder orderItems) := by
  unfold ValidOrder; infer_instance

end OrderCalculator

instance {ε α : Type} [DecidableEq ε] [DecidableEq α] : DecidableEq (Except ε α) :=
  fun a b =>
    match a, b with
    | Except.ok x, Except.ok y => decidable_of_iff (x = y) (by simp)
    | Except.error x, Except.error y => decidable_of_iff (x = y) (by simp)
    | Except.ok _, Except.error _ => isFalse (by simp)
    | Except.error _, Except.ok _ => isFalse (by simp)

namespace OrderCalculator

/-! ### Helper lemmas shared by the claim theorems -/

lemma itemViolation_eq_none_iff (item : OrderItem) :
    itemViolation item = none ↔ ValidItem item := by
  unfold itemViolation ValidItem
  split_ifs with h1 h2 h3 <;> simp_all

lemma validateLoop_ok_iff (items : List OrderItem) :
    validateLoop items = Except.ok () ↔ ∀ item ∈ items, ValidItem item := by
  induction items with
  | nil => simp [validateLoop]
  | cons head tail ih =>
    simp only [validateLoop, List.mem_cons]
    rcases hv : itemViolation head with _ | msg
    · rw [itemViolation_eq_none_iff] at hv
      simp [ih, hv]
    · have : ¬ ValidItem head := by
        rw [← itemViolation_eq_none_iff, hv]; simp
      simp [this]

lemma validateOrderItems_ok_iff (items : List OrderItem) :
    validateOrderItems items = Except.ok () ↔ ValidOrder items := by
  unfold validateOrderItems ValidOrder
  rcases items with _ | ⟨head, tail⟩
  · simp
  · simp [validateLoop_ok_iff]

lemma calculateOrderTotal_of_valid (items : List OrderItem)
    (h : ValidOrder items) :
    calculateOrderTotal items =
      Except.ok (roundTo2 (calculateSubtotal items +
        calculateShippingCost (calculateSubtotal items))) := by
  have hv : validateOrderItems items = Except.ok () :=
    (validateOrderItems_ok_iff items).mpr h
  simp [calculateOrderTotal, hv]

lemma foldl_add_eq (f : OrderItem → ℚ) :
    ∀ (l : List OrderItem) (a : ℚ),
      l.foldl (fun s i => s + f i) a = a + (l.map f).sum := by
  intro l
  induction l with
  | nil => simp
  | cons head tail ih => intro a; simp [ih, add_assoc]

lemma calculateSubtotal_eq_sum (items : List OrderItem) :
    calculateSubtotal items = (items.map calculateItemTotal).sum := by
  unfold calculateSubtotal
  rw [foldl_add_eq]
  simp

lemma calculateOrderTotal_error_of_invalid (items : List OrderItem)
    (h : ¬ ValidOrder items) :
    ∃ e, validateOrderItems items = Except.error e ∧
      calculateOrderTotal items = Except.error e := by
  cases hv : validateOrderItems items with
  | error e => exact ⟨e, rfl, by simp [calculateOrderTotal, hv]⟩
  | ok u =>
    cases u
    exact absurd ((validateOrderItems_ok_iff items).mp hv) h

lemma validateLoop_error_of_find (items : List OrderItem) (bad : OrderItem)
    (hfind : items.find? (fun j => !(decide (ValidItem j))) = some bad) :
    ∃ msg, itemViolation bad = some msg ∧
      validateLoop items = Except.error msg := by
  induction items with
  | nil => simp at hfind
  | cons x rest ih =>
    by_cases hx : ValidItem x
    · have hnone : itemViolation x = none := (itemViolation_eq_none_iff x).mpr hx
      have hpred : (fun j => !(decide (ValidItem j))) x = false := by simp [hx]
      rw [List.find?_cons_of_neg _ (by simp [hx])] at hfind
      obtain ⟨msg, h1, h2⟩ := ih hfind
      exact ⟨msg, h1, by simp [validateLoop, hnone, h2]⟩
    · rw [List.find?_cons_of_pos _ (by simp [hx])] at hfind
      have hbad : x = bad := by injection hfind
      have hsome : itemViolation x ≠ none := by
        rw [Ne, itemViolation_eq_none_iff]; exact hx
      obtain ⟨msg, hmsg⟩ := Option.ne_none_iff_exists'.mp hsome
      exact ⟨msg, hbad ▸ hmsg, by simp [validateLoop, hmsg]⟩

lemma itemViolation_msg_ends_with_name (item : OrderItem) (msg : String)
    (h : itemViolation item = some msg) :
    ∃ p, msg = p ++ item.productName := by
  unfold itemViolation at h
  split_ifs at h with h1 h2 h3
  · exact ⟨"Invalid quantity for item ", by injection h with h; exact h.symm⟩
  · exact ⟨"Invalid price for item ", by injection h with h; exact h.symm⟩
  · refine ⟨"Product name cannot be empty", ?_⟩
    injection h with h
    rw [← h, h3]
    rfl

lemma calculateItemTotal_nonneg (item : OrderItem) (h : ValidItem item) :
    0 ≤ calculateItemTotal item := by
  obtain ⟨hq, hp, _⟩ := h
  have hqc : (0:ℚ) ≤ (item.quantity : ℚ) := by exact_mod_cast le_of_lt hq
  have hbase : 0 ≤ item.getTotalPrice := mul_nonneg hp hqc
  simp only [calculateItemTotal, applyElectronicsTax, applyBookDiscount]
  split_ifs
  · exact mul_nonneg hbase
      (by norm_num [OrderConstants.ELECTRONICS_TAX_RATE])
  · exact mul_nonneg hbase
      (by norm_num [OrderConstants.BOOK_BULK_DISCOUNT_RATE])
  · exact hbase
  · exact hbase

lemma calculateSubtotal_nonneg (items : List OrderItem)
    (h : ∀ item ∈ items, ValidItem item) :
    0 ≤ calculateSubtotal items := by
  rw [calculateSubtotal_eq_sum]
  apply List.sum_nonneg
  intro x hx
  obtain ⟨i, hi, rfl⟩ := List.mem_map.mp hx
  exact calculateItemTotal_nonneg i (h i hi)

lemma roundTo2_ge_ten (x : ℚ) (h : 10 ≤ x) : 10 ≤ roundTo2 x := by
  have h1000 : (1000:ℚ) ≤ x * 100 := by nlinarith
  unfold roundTo2 roundHalfAwayFromZero
  rw [if_pos (le_trans (by norm_num) h1000)]
  have hfloor : (1000:ℤ) ≤ Int.floor (x * 100 + 1/2) := by
    rw [Int.le_floor]
    push_cast
    linarith
  have hcast : (1000:ℚ) ≤ (Int.floor (x * 100 + 1/2) : ℚ) := by
    exact_mod_cast hfloor
  rw [le_div_iff₀ (by norm_num : (0:ℚ) < 100)]
  linarith

lemma toUpperCase_BOOKS : toUpperCase "BOOKS" = "BOOKS" := by decide

lemma toUpperCase_books_lower : toUpperCase "books" = "BOOKS" := by decide

lemma toUpperCase_MISC : toUpperCase "MISC" = "MISC" := by decide

lemma toUpperCase_electronics_mixed :
    toUpperCase "Electronics" = "ELECTRONICS" := by decide

end OrderCalculator

section Claims

open OrderCalculator

/-- Claim C1: for every `OrderItem`, the adjusted line total computed by
`calculateItemTotal` from the raw line total (`getTotalPrice`, i.e.
`price × quantity`) follows the per-category policy, matched
case-insensitively (via `toUpperCase`): `ELECTRONICS` multiplies by
`(1 + 0.10)`; `BOOKS` multiplies by `(1 − 0.05)` when `quantity ≥ 5`
(inclusive threshold) and leaves the total unchanged when `quantity < 5`;
any other category leaves the total unchanged. -/
theorem claim1_per_category_pricing_policy (item : OrderItem) :
    (toUpperCase item.category = "ELECTRONICS" →
      calculateItemTotal item = item.getTotalPrice * (1 + 1/10)) ∧
    (toUpperCase item.category = "BOOKS" → 5 ≤ item.quantity →
      calculateItemTotal item = item.getTotalPrice * (1 - 1/20)) ∧
    (toUpperCase item.category = "BOOKS" → item.quantity < 5 →
      calculateItemTotal item = item.getTotalPrice) ∧
    (toUpperCase item.category ≠ "ELECTRONICS" →
      toUpperCase item.category ≠ "BOOKS" →
      calculateItemTotal item = item.getTotalPrice) := by
  refine ⟨fun he => ?_, fun hb h5 => ?_, fun hb h5 => ?_, fun hne hnb => ?_⟩
  · simp [calculateItemTotal, he, applyElectronicsTax,
      OrderConstants.ELECTRONICS_CATEGORY, OrderConstants.ELECTRONICS_TAX_RATE]
  · simp [calculateItemTotal, hb, applyBookDiscount, h5,
      OrderConstants.ELECTRONICS_CATEGORY, OrderConstants.BOOKS_CATEGORY,
      OrderConstants.BOOK_BULK_QUANTITY_THRESHOLD,
      OrderConstants.BOOK_BULK_DISCOUNT_RATE]
  · have hnot : ¬ (5 ≤ item.quantity) := not_le.mpr h5
    simp [calculateItemTotal, hb, applyBookDiscount, hnot,
      OrderConstants.ELECTRONICS_CATEGORY, OrderConstants.BOOKS_CATEGORY,
      OrderConstants.BOOK_BULK_QUANTITY_THRESHOLD]
  · simp [calculateItemTotal, hne, hnb,
      OrderConstants.ELECTRONICS_CATEGORY, OrderConstants.BOOKS_CATEGORY]

/-- Witness for C1 at concrete items of each category. -/
theorem claim1_witness :
    calculateItemTotal ⟨"TV", 100, 1, "Electronics"⟩ =
      OrderItem.getTotalPrice ⟨"TV", 100, 1, "Electronics"⟩ * (1 + 1/10) ∧
    calculateItemTotal ⟨"Novel", 10, 5, "books"⟩ =
      OrderItem.getTotalPrice ⟨"Novel", 10, 5, "books"⟩ * (1 - 1/20) ∧
    calculateItemTotal ⟨"Novel", 10, 4, "books"⟩ =
      OrderItem.getTotalPrice ⟨"Novel", 10, 4, "books"⟩ ∧
    calculateItemTotal ⟨"Mug", 10, 1, "MISC"⟩ =
      OrderItem.getTotalPrice ⟨"Mug", 10, 1, "MISC"⟩ :=
  ⟨(claim1_per_category_pricing_policy _).1 (by decide),
   (claim1_per_category_pricing_policy _).2.1 (by decide) (by decide),
   (claim1_per_category_pricing_policy _).2.2.1 (by decide) (by decide),
   (claim1_per_category_pricing_policy _).2.2.2 (by decide) (by decide)⟩

/-- Claim C3: `calculateShippingCost` returns `0` when the subtotal is at
least `100.00` (inclusive threshold) and the flat `10.00` when the subtotal
is below `100.00`. -/
theorem claim3_shipping_threshold (subtotal : ℚ) :
    (100 ≤ subtotal → calculateShippingCost subtotal = 0) ∧
    (subtotal < 100 → calculateShippingCost subtotal = 10) := by
  unfold calculateShippingCost OrderConstants.FREE_SHIPPING_THRESHOLD
    OrderConstants.STANDARD_SHIPPING_COST
  constructor
  · intro h; rw [if_pos h]
  · intro h; rw [if_neg (not_le.mpr h)]

/-- Witness for C3 at the boundary subtotal `100` and at `50`. -/
theorem claim3_witness :
    calculateShippingCost 100 = 0 ∧ calculateShippingCost 50 = 10 :=
  ⟨(claim3_shipping_threshold 100).1 (by norm_num),
   (claim3_shipping_threshold 50).2 (by norm_num)⟩

/-- Claim C7: the single-item order of one BOOKS item with unit price
`10.00` and quantity `5` totals exactly `57.50` (`= 115/2`): line total
`50.00`, bulk discount gives `47.50`, below the free-shipping threshold, so
`10.00` shipping is added. -/
theorem claim7_books_scenario :
    calculateOrderTotal [⟨"Book", 10, 5, "BOOKS"⟩] = Except.ok (115/2) := by
  rw [calculateOrderTotal_of_valid _ (by decide)]
  simp [calculateSubtotal_eq_sum, calculateItemTotal, toUpperCase_BOOKS,
    OrderConstants.ELECTRONICS_CATEGORY, OrderConstants.BOOKS_CATEGORY,
    applyBookDiscount, OrderConstants.BOOK_BULK_QUANTITY_THRESHOLD,
    OrderConstants.BOOK_BULK_DISCOUNT_RATE, OrderItem.getTotalPrice,
    calculateShippingCost, OrderConstants.FREE_SHIPPING_THRESHOLD,
    OrderConstants.STANDARD_SHIPPING_COST, roundTo2, roundHalfAwayFromZero]
  norm_num

/-- Claim C9: the BOOKS bulk discount is decided from each line's own
quantity: any BOOKS line with quantity below 5 is left unchanged, so two
BOOKS lines of quantity 3 each (price 10) yield subtotal `60` undiscounted,
while a single BOOKS line of quantity 6 (price 10) is discounted to `57`. -/
theorem claim9_per_line_discount :
    (∀ item : OrderItem, toUpperCase item.category = "BOOKS" →
      item.quantity < 5 → calculateItemTotal item = item.getTotalPrice) ∧
    calculateSubtotal
      [⟨"BookA", 10, 3, "BOOKS"⟩, ⟨"BookB", 10, 3, "BOOKS"⟩] = 60 ∧
    calculateSubtotal [⟨"BookC", 10, 6, "BOOKS"⟩] = 57 := by
  refine ⟨fun item hb h5 => ?_, ?_, ?_⟩
  · have hnot : ¬ (5 ≤ item.quantity) := not_le.mpr h5
    simp [calculateItemTotal, hb, applyBookDiscount, hnot,
      OrderConstants.ELECTRONICS_CATEGORY, OrderConstants.BOOKS_CATEGORY,
      OrderConstants.BOOK_BULK_QUANTITY_THRESHOLD]
  · simp [calculateSubtotal_eq_sum, calculateItemTotal, toUpperCase_BOOKS,
      OrderConstants.ELECTRONICS_CATEGORY, OrderConstants.BOOKS_CATEGORY,
      applyBookDiscount, OrderConstants.BOOK_BULK_QUANTITY_THRESHOLD,
      OrderConstants.BOOK_BULK_DISCOUNT_RATE, OrderItem.getTotalPrice]
    norm_num
  · simp [calculateSubtotal_eq_sum, calculateItemTotal, toUpperCase_BOOKS,
      OrderConstants.ELECTRONICS_CATEGORY, OrderConstants.BOOKS_CATEGORY,
      applyBookDiscount, OrderConstants.BOOK_BULK_QUANTITY_THRESHOLD,
      OrderConstants.BOOK_BULK_DISCOUNT_RATE, OrderItem.getTotalPrice]
    norm_num

/-- Witness for C9: a concrete BOOKS line of quantity 3 is undiscounted. -/
theorem claim9_witness :
    calculateItemTotal ⟨"Atlas", 10, 3, "BOOKS"⟩ =
      OrderItem.getTotalPrice ⟨"Atlas", 10, 3, "BOOKS"⟩ :=
  claim9_per_line_discount.1 _ (by decide) (by decide)

/-- Claim C10: `calculateOrderTotal` is not monotone in the order's
contents: the valid one-item order of a `95.00` MISC item totals `105.00`
(shipping added), while appending a valid `5.00` item with positive price
pushes the subtotal to the free-shipping threshold and the total drops to
`100.00`. -/
theorem claim10_not_monotone :
    ValidItem ⟨"Gadget", 5, 1, "MISC"⟩ ∧ (0:ℚ) < 5 ∧
    calculateOrderTotal [⟨"Widget", 95, 1, "MISC"⟩] = Except.ok 105 ∧
    calculateOrderTotal
      [⟨"Widget", 95, 1, "MISC"⟩, ⟨"Gadget", 5, 1, "MISC"⟩] =
      Except.ok 100 ∧ (100:ℚ) < 105 := by
  refine ⟨by decide, by norm_num, ?_, ?_, by norm_num⟩
  · rw [calculateOrderTotal_of_valid _ (by decide)]
    simp [calculateSubtotal_eq_sum, calculateItemTotal, toUpperCase_MISC,
      OrderConstants.ELECTRONICS_CATEGORY, OrderConstants.BOOKS_CATEGORY,
      OrderItem.getTotalPrice, calculateShippingCost,
      OrderConstants.FREE_SHIPPING_THRESHOLD,
      OrderConstants.STANDARD_SHIPPING_COST, roundTo2, roundHalfAwayFromZero]
    norm_num
  · rw [calculateOrderTotal_of_valid _ (by decide)]
    simp [calculateSubtotal_eq_sum, calculateItemTotal, toUpperCase_MISC,
      OrderConstants.ELECTRONICS_CATEGORY, OrderConstants.BOOKS_CATEGORY,
      OrderItem.getTotalPrice, calculateShippingCost,
      OrderConstants.FREE_SHIPPING_THRESHOLD,
      OrderConstants.STANDARD_SHIPPING_COST, roundTo2, roundHalfAwayFromZero]
    norm_num

/-- Counterexample for C2 as stated: on the empty order the code's reason
string is "Order must contain at least one item" (capital `O`), not the
claimed "order must contain at least one item". -/
theorem claim2_counterexample :
    calculateOrderTotal [] =
      Except.error "Order must contain at least one item" ∧
    calculateOrderTotal [] ≠
      Except.error "order must contain at least one item" := by
  constructor
  · rfl
  · decide

/-- Claim C2 (amended): `calculateOrderTotal` fails if and only if the
input is empty (with reason "Order must contain at least one item",
capital `O`) or some item has `quantity ≤ 0`, `price < 0`, or an empty
`productName`; on failure only an error is produced, and on every input
satisfying the preconditions it returns a total without failing. -/
theorem claim2_failure_iff (items : List OrderItem) :
    ((∃ q, calculateOrderTotal items = Except.ok q) ↔ ValidOrder items) ∧
    ((∃ e, calculateOrderTotal items = Except.error e) ↔
      (items = [] ∨ ∃ item ∈ items,
        item.quantity ≤ 0 ∨ item.price < 0 ∨ item.productName = "")) ∧
    (items = [] → calculateOrderTotal items =
      Except.error "Order must contain at least one item") := by
  have hiff : (items = [] ∨ ∃ item ∈ items,
      item.quantity ≤ 0 ∨ item.price < 0 ∨ item.productName = "") ↔
      ¬ ValidOrder items := by
    unfold ValidOrder ValidItem
    push_neg
    constructor
    · rintro (h | ⟨item, hmem, hviol⟩)
      · intro hne; exact absurd h hne
      · intro _
        refine ⟨item, hmem, ?_⟩
        intro hq hp
        rcases hviol with h1 | h2 | h3
        · exact absurd hq (not_lt.mpr h1)
        · exact absurd hp (not_le.mpr h2)
        · exact h3
    · intro h
      by_cases hne : items = []
      · exact Or.inl hne
      · obtain ⟨item, hmem, hviol⟩ := h hne
        refine Or.inr ⟨item, hmem, ?_⟩
        by_cases hq : 0 < item.quantity
        · by_cases hp : 0 ≤ item.price
          · exact Or.inr (Or.inr (hviol hq hp))
          · exact Or.inr (Or.inl (not_le.mp hp))
        · exact Or.inl (not_lt.mp hq)
  by_cases hv : ValidOrder items
  · have hok := calculateOrderTotal_of_valid items hv
    refine ⟨⟨fun _ => hv, fun _ => ⟨_, hok⟩⟩, ?_, ?_⟩
    · rw [hiff]
      simp [hok, hv]
    · intro hnil
      exact absurd hnil hv.1
  · obtain ⟨e, _, herr⟩ := calculateOrderTotal_error_of_invalid items hv
    refine ⟨?_, ?_, ?_⟩
    · simp [herr, hv]
    · rw [hiff]
      simp [herr, hv]
    · intro hnil
      subst hnil
      rfl

/-- Witness for C2 at the empty order and at a concrete valid order. -/
theorem claim2_witness :
    calculateOrderTotal [] =
      Except.error "Order must contain at least one item" ∧
    ∃ q, calculateOrderTotal [⟨"Pen", 2, 1, "MISC"⟩] = Except.ok q :=
  ⟨(claim2_failure_iff []).2.2 rfl,
   (claim2_failure_iff [⟨"Pen", 2, 1, "MISC"⟩]).1.mpr (by decide)⟩

/-- Claim C4: rounding to 2 decimal places (round half away from zero, via
`roundTo2`) is applied exactly once, to `subtotal + shipping`:
`getTotalPrice` is exactly `price × quantity`, and the subtotal is the
plain sum of the unrounded adjusted line totals. -/
theorem claim4_single_final_rounding :
    (∀ item : OrderItem,
      item.getTotalPrice = item.price * (item.quantity : ℚ)) ∧
    (∀ items : List OrderItem, ValidOrder items →
      calculateOrderTotal items =
        Except.ok (roundTo2 ((items.map calculateItemTotal).sum +
          calculateShippingCost ((items.map calculateItemTotal).sum)))) := by
  constructor
  · intro item; rfl
  · intro items h
    rw [calculateOrderTotal_of_valid items h, calculateSubtotal_eq_sum]

/-- Witness for C4 at a concrete item and a concrete valid order. -/
theorem claim4_witness :
    OrderItem.getTotalPrice ⟨"Pen", 3, 2, "MISC"⟩ = (3:ℚ) * ((2:ℤ) : ℚ) ∧
    calculateOrderTotal [⟨"Pen", 3, 2, "MISC"⟩] =
      Except.ok (roundTo2
        (([⟨"Pen", 3, 2, "MISC"⟩].map calculateItemTotal).sum +
          calculateShippingCost
            (([⟨"Pen", 3, 2, "MISC"⟩].map calculateItemTotal).sum))) :=
  ⟨claim4_single_final_rounding.1 ⟨"Pen", 3, 2, "MISC"⟩,
   claim4_single_final_rounding.2 _ (by decide)⟩

/-- Claim C6: for every valid order and every permutation of its items,
`calculateOrderTotal` returns the same result. -/
theorem claim6_permutation_invariant (items1 items2 : List OrderItem)
    (hperm : items1.Perm items2) (hvalid : ValidOrder items1) :
    calculateOrderTotal items1 = calculateOrderTotal items2 := by
  have hvalid2 : ValidOrder items2 := by
    obtain ⟨hne, hall⟩ := hvalid
    refine ⟨?_, fun i hi => hall i (hperm.mem_iff.mpr hi)⟩
    intro h2
    exact hne (List.Perm.eq_nil (h2 ▸ hperm))
  have hsub : calculateSubtotal items1 = calculateSubtotal items2 := by
    rw [calculateSubtotal_eq_sum, calculateSubtotal_eq_sum]
    exact List.Perm.sum_eq (hperm.map calculateItemTotal)
  rw [calculateOrderTotal_of_valid items1 hvalid,
    calculateOrderTotal_of_valid items2 hvalid2, hsub]

/-- Witness for C6: swapping the two items of a concrete valid order does
not change the total. -/
theorem claim6_witness :
    calculateOrderTotal [⟨"Pen", 2, 1, "MISC"⟩, ⟨"Mug", 7, 1, "MISC"⟩] =
      calculateOrderTotal [⟨"Mug", 7, 1, "MISC"⟩, ⟨"Pen", 2, 1, "MISC"⟩] :=
  claim6_permutation_invariant _ _ (List.Perm.swap _ _ _) (by decide)

/-- Claim C5: on a non-empty order whose first violating item (in input
order) is `bad`, `calculateOrderTotal` fails with the message produced for
`bad` — the first violation found, fail-fast — and that message ends with
(names) `bad`'s product name. -/
theorem claim5_fail_fast_first_violation (items : List OrderItem)
    (bad : OrderItem) (hne : items ≠ [])
    (hfind : items.find? (fun j => !(decide (ValidItem j))) = some bad) :
    ∃ msg, itemViolation bad = some msg ∧
      calculateOrderTotal items = Except.error msg ∧
      ∃ p, msg = p ++ bad.productName := by
  obtain ⟨msg, h1, h2⟩ := validateLoop_error_of_find items bad hfind
  have hval : validateOrderItems items = Except.error msg := by
    unfold validateOrderItems
    rw [if_neg (by simpa using hne)]
    exact h2
  exact ⟨msg, h1, by simp [calculateOrderTotal, hval],
    itemViolation_msg_ends_with_name bad msg h1⟩

/-- Witness for C5: in a concrete order whose second item has quantity 0,
the calculator fails with that item's message, ending in its name. -/
theorem claim5_witness :
    ∃ msg, itemViolation ⟨"Rock", 3, 0, "MISC"⟩ = some msg ∧
      calculateOrderTotal [⟨"Pen", 2, 1, "MISC"⟩, ⟨"Rock", 3, 0, "MISC"⟩] =
        Except.error msg ∧
      ∃ p, msg = p ++ OrderItem.productName ⟨"Rock", 3, 0, "MISC"⟩ :=
  claim5_fail_fast_first_violation _ _ (by decide) (by decide)

/-- Claim C8: every valid order's total is non-negative, and in fact at
least `10.00`: either the subtotal is at least the free-shipping threshold
`100.00`, or the flat `10.00` shipping is added to a non-negative
subtotal. -/
theorem claim8_total_lower_bound (items : List OrderItem)
    (h : ValidOrder items) :
    ∃ q, calculateOrderTotal items = Except.ok q ∧ 0 ≤ q ∧ 10 ≤ q := by
  have hsub : 0 ≤ calculateSubtotal items := calculateSubtotal_nonneg items h.2
  have harg : 10 ≤ calculateSubtotal items +
      calculateShippingCost (calculateSubtotal items) := by
    unfold calculateShippingCost OrderConstants.FREE_SHIPPING_THRESHOLD
      OrderConstants.STANDARD_SHIPPING_COST
    split_ifs with hge
    · linarith
    · linarith
  have hten := roundTo2_ge_ten _ harg
  exact ⟨_, calculateOrderTotal_of_valid items h,
    le_trans (by norm_num) hten, hten⟩

/-- Witness for C8 at a concrete valid order. -/
theorem claim8_witness :
    ∃ q, calculateOrderTotal [⟨"Pen", 2, 1, "MISC"⟩] = Except.ok q ∧
      0 ≤ q ∧ 10 ≤ q :=
  claim8_total_lower_bound _ (by decide)

end Claims
